import Mathlib

/-!
Shallow embedding of the labctl convergence engine: the command runner
from tools/labctl/kube.py, the generic readiness poller from
tools/labctl/wait.py, and the stage checks, health snapshot and cluster
reconciler from tools/labctl/start.py. External effects (process spawns,
the HTTP request, file reads, JSON and YAML parsing) are modelled by
passing their observed outcomes as explicit inputs. Each polling loop body
is embedded as a pure step function from the observed outcomes of the
iteration to a step result: raise a terminal error, return done, or sleep
and run another iteration.
-/

namespace KubeChaosLab

/-- CommandResult from kube.py: exit code and both captured streams. -/
structure CommandResult where
  returncode : Int
  stdout : String
  stderr : String
deriving DecidableEq

/-- The exception values the embedded code can raise. CommandError carries
the attempted command argv and the CommandResult that produced it, as in
kube.py; StartError and RuntimeError carry their message. The remaining
constructors stand for the builtin or library exception classes that the
embedded code lets escape unwrapped. -/
inductive PyExc where
  | osError
  | attributeError
  | yamlError
  | jsonError
  | runtimeError (msg : String)
  | startError (msg : String)
  | commandError (command : List String) (result : CommandResult)
deriving DecidableEq

/-- Result of one iteration of a polling loop: raise a terminal error,
return done with a value, or sleep and run another iteration. -/
inductive Step (α : Type) where
  | raise (e : PyExc)
  | done (a : α)
  | retry
deriving DecidableEq

/-- Outcome of feeding a captured text stream to json.loads or of feeding
a file to yaml.safe_load: the parsed value, or a parse exception. -/
inductive Parsed (α : Type) where
  | ok (a : α)
  | fail
deriving DecidableEq

/-- What subprocess.run produced for one spawned process: the exit status
and the captured streams, which Python may report as absent. -/
structure SpawnResult where
  returncode : Int
  stdout : Option String
  stderr : Option String
deriving DecidableEq

/-- run_command from kube.py: wraps the spawned process outcome into a
CommandResult, mapping an absent stream to the empty string; it never
raises, whatever the exit code. -/
def run_command (p : SpawnResult) : CommandResult :=
  ⟨p.returncode, p.stdout.getD "", p.stderr.getD ""⟩

/-- run_or_raise from kube.py: runs the command and raises CommandError
exactly when the exit code is nonzero; the error carries the command argv
and the full result. -/
def run_or_raise (command : List String) (p : SpawnResult) : Except PyExc CommandResult :=
  let result := run_command p
  if result.returncode != 0 then
    Except.error (PyExc.commandError command result)
  else
    Except.ok result

/-- Python truthiness of an Optional str value, as used by the fail-fast
guard in wait.py: absent and the empty string are falsy. -/
def strTruthy : Option String → Bool
  | none => false
  | some s => !(s == "")

/-- One iteration of Waiter.wait from wait.py. The first argument is the
fail-fast input: none when no fail_fast predicate was supplied, otherwise
the Optional str the predicate returned on this iteration. The second
argument is the pair the check function returned. The fail-fast guard runs
first and raises RuntimeError on a truthy diagnostic, before the check
result is consulted. -/
def waiterStep (fail_fast : Option (Option String)) (check : Bool × String) : Step Unit :=
  match fail_fast with
  | some err =>
    if strTruthy err then Step.raise (PyExc.runtimeError (err.getD ""))
    else if check.1 then Step.done () else Step.retry
  | none =>
    if check.1 then Step.done () else Step.retry

/-- One entry of a status.conditions list, carrying the type and status
fields read by the readiness checks. -/
structure KCondition where
  condType : String
  condStatus : String
deriving DecidableEq

/-- A node object as consumed by the checks: only its status.conditions
list is read. -/
structure Node where
  conditions : List KCondition
deriving DecidableEq

/-- node_is_ready from start.py: some condition has type Ready with status
True. -/
def node_is_ready (n : Node) : Bool :=
  n.conditions.any (fun c => c.condType == "Ready" && c.condStatus == "True")

/-- The state.waiting block of a container status: the reason field, which
may be absent, and the message field with its empty default. -/
structure Waiting where
  reason : Option String
  message : String
deriving DecidableEq

/-- A container status: only its state.waiting block is read; none stands
for an absent or empty, hence falsy, waiting block. -/
structure ContainerStatus where
  waiting : Option Waiting
deriving DecidableEq

/-- A pod object as consumed by the checks: metadata.name, status.phase,
status.conditions and status.containerStatuses. -/
structure Pod where
  name : String
  phase : String
  conditions : List KCondition
  containerStatuses : List ContainerStatus
deriving DecidableEq

/-- pod readiness as computed in the ingress loop in start.py: some
condition has type Ready with status True. -/
def pod_is_ready (p : Pod) : Bool :=
  p.conditions.any (fun c => c.condType == "Ready" && c.condStatus == "True")

/-- The container waiting reasons treated as terminal by both fail-fast
detectors in start.py. -/
def terminalReasons : List String :=
  ["ImagePullBackOff", "ErrImagePull", "CrashLoopBackOff"]

/-- Scan of a containerStatuses list for the first terminal waiting state,
yielding its reason and message; containers with a falsy waiting block or
a reason outside the terminal set are skipped, as in both detector loops
in start.py. -/
def firstTerminalWaiting : List ContainerStatus → Option (String × String)
  | [] => none
  | cs :: rest =>
    match cs.waiting with
    | none => firstTerminalWaiting rest
    | some w =>
      match w.reason with
      | some r =>
        if terminalReasons.contains r then some (r, w.message)
        else firstTerminalWaiting rest
      | none => firstTerminalWaiting rest

/-- Python str.strip with no argument: removes whitespace from both ends.
Written over the character list so that it evaluates by kernel
reduction. -/
def stripStr (s : String) : String :=
  String.mk (((s.data.dropWhile Char.isWhitespace).reverse.dropWhile Char.isWhitespace).reverse)

/-- The diagnostic raised by the detector used on the CoreDNS path,
mirroring the formatted and stripped message built in start.py. -/
def podFailureMsg (componentName podName phase reason message : String) : String :=
  stripStr (componentName ++ " pod failure: " ++ podName ++ " phase=" ++ phase ++
    " reason=" ++ reason ++ " " ++ message)

/-- Scan of a pod list for the first pod holding a terminal container
waiting state, yielding the formatted diagnostic for it. -/
def scanPodsForTerminal (componentName : String) : List Pod → Option String
  | [] => none
  | p :: rest =>
    match firstTerminalWaiting p.containerStatuses with
    | some rm => some (podFailureMsg componentName p.name p.phase rm.1 rm.2)
    | none => scanPodsForTerminal componentName rest

/-- raise_on_terminal_pod_failures from start.py. A nonzero exit code from
the pod query returns silently. On a zero exit code the captured stdout is
fed to json.loads outside any try block, so a parse failure raises the
JSON decode error to the caller. Otherwise the pods are scanned and the
first terminal waiting reason raises StartError with its diagnostic. -/
def raise_on_terminal_pod_failures (podsRc : Int) (podsParsed : Parsed (List Pod))
    (componentName : String) : Except PyExc Unit :=
  if podsRc != 0 then Except.ok ()
  else
    match podsParsed with
    | Parsed.fail => Except.error PyExc.jsonError
    | Parsed.ok pods =>
      match scanPodsForTerminal componentName pods with
      | some msg => Except.error (PyExc.startError msg)
      | none => Except.ok ()

/-- The status block of a deployment object. Each count is read with a get
default of zero followed by an or-zero guard, so an absent field or a null
value both read as zero; an absent field is modelled as none. The
readyReplicas field is part of the external data model but is never read
by the code. -/
structure DepStatus where
  replicas : Option Nat
  availableReplicas : Option Nat
  updatedReplicas : Option Nat
  readyReplicas : Option Nat
deriving DecidableEq

/-- The availability gate inside wait_for_deployment_available in
start.py: desired is status.replicas and available is
status.availableReplicas; the gate holds when desired is positive and
available equals desired. -/
def deploymentAvailable (st : DepStatus) : Bool :=
  let desired := st.replicas.getD 0
  let available := st.availableReplicas.getD 0
  decide (0 < desired) && (available == desired)

/-- Modelled from the spec: the claimed deployment-availability gate of at
least one ready replica and at least one available replica, stated in
section 4.5 and in the boundary property of section 8. The code under
verification does not implement this gate; the definition exists only to
compare the code against the claimed contract. -/
def specDeploymentAvailable (st : DepStatus) : Bool :=
  decide (1 ≤ st.readyReplicas.getD 0) && decide (1 ≤ st.availableReplicas.getD 0)

/-- get_deployment_json from start.py: every failure of the query or of
json.loads is caught and yields none. -/
def get_deployment_json (rc : Int) (parsed : Parsed DepStatus) : Option DepStatus :=
  if rc != 0 then none
  else
    match parsed with
    | Parsed.fail => none
    | Parsed.ok d => some d

/-- One iteration of wait_for_deployment_available from start.py: a
missing deployment object retries; otherwise the availability gate is
evaluated and, when it holds, the iteration returns done without running
the fail-fast detector; only an iteration whose gate does not hold runs
the detector, whose raise aborts the wait. -/
def depWaitStep (dep : Option DepStatus) (podsRc : Int)
    (podsParsed : Parsed (List Pod)) (componentName : String) : Step Unit :=
  match dep with
  | none => Step.retry
  | some st =>
    if deploymentAvailable st then Step.done ()
    else
      match raise_on_terminal_pod_failures podsRc podsParsed componentName with
      | Except.error e => Step.raise e
      | Except.ok _ => Step.retry

/-- One iteration of wait_for_nodes_ready from start.py: a failing node
query or a JSON parse failure is caught and retries; otherwise the
iteration is done when the observed item count equals the expected count
and the number of Ready items equals the expected count. -/
def nodesReadyStep (expected : Nat) (rc : Int) (parsed : Parsed (List Node)) : Step Unit :=
  if rc != 0 then Step.retry
  else
    match parsed with
    | Parsed.fail => Step.retry
    | Parsed.ok items =>
      let ready := (items.filter node_is_ready).length
      if items.length == expected && ready == expected then Step.done ()
      else Step.retry

/-- The observed inputs of one health snapshot: the exit code of the
cluster-info query, the exit code of the node query, and the json.loads
outcome on its stdout, reduced to the items list of the parsed document. -/
structure HealthInputs where
  clusterInfoRc : Int
  getNodesRc : Int
  nodesParsed : Parsed (List Node)
deriving DecidableEq

/-- cluster_is_healthy_snapshot from start.py: unhealthy when cluster-info
fails, when the node query fails or its output does not parse, when the
observed item count differs from the expected node count, or when some
observed node is not Ready; healthy otherwise. -/
def cluster_is_healthy_snapshot (h : HealthInputs) (expected : Nat) : Bool :=
  if h.clusterInfoRc != 0 then false
  else if h.getNodesRc != 0 then false
  else
    match h.nodesParsed with
    | Parsed.fail => false
    | Parsed.ok items =>
      if items.length != expected then false
      else items.all node_is_ready

/-- The mutating provisioning commands the reconciler can issue. -/
inductive RCmd where
  | create
  | delete
deriving DecidableEq

/-- ensure_cluster from start.py, instrumented with the ordered list of
provisioning commands issued. The clusters argument is the split stdout of
the kind cluster-list query. A create or delete invocation counts as
issued when attempted; a nonzero exit code of the attempt is wrapped into
StartError, which aborts the run, so a failed delete prevents the create
that would have followed it. The StartError payloads elide the
interpolated CommandError text, which no claim consults. -/
def ensure_cluster (clusters : List String) (name : String) (h : HealthInputs)
    (expected : Nat) (deleteRc createRc : Int) : List RCmd × Except PyExc Unit :=
  if !(clusters.contains name) then
    ([RCmd.create],
      if createRc != 0 then Except.error (PyExc.startError "Failed to create cluster")
      else Except.ok ())
  else if cluster_is_healthy_snapshot h expected then
    ([], Except.ok ())
  else if deleteRc != 0 then
    ([RCmd.delete], Except.error (PyExc.startError "Failed to delete cluster"))
  else
    ([RCmd.delete, RCmd.create],
      if createRc != 0 then Except.error (PyExc.startError "Failed to create cluster")
      else Except.ok ())

/-- A node entry of the topology file with its declared role field. -/
structure TopoNode where
  role : Option String
deriving DecidableEq

/-- The parsed topology mapping: its top-level nodes list, none when the
key is absent, in which case the get default supplies the empty list. -/
structure TopoDoc where
  nodes : Option (List TopoNode)
deriving DecidableEq

/-- expected_node_count from start.py applied to a parsed topology
mapping: the length of the nodes list, defaulting to the empty list. -/
def expected_node_count (d : TopoDoc) : Nat :=
  (d.nodes.getD []).length

/-- The possible outcomes of opening the topology file and feeding it to
yaml.safe_load. -/
inductive TopoRead where
  | missingFile
  | unreadableFile
  | invalidYaml
  | nonMapping
  | mapping (d : TopoDoc)
deriving DecidableEq

/-- expected_node_count from start.py including its error behavior. The
open and the parse run outside any try block, so a missing or unreadable
file raises the file-system error unwrapped, malformed YAML raises the
parser error unwrapped, and a document that is not a mapping raises
AttributeError from the get call; a mapping without a nodes list succeeds
with zero via the get default. -/
def expected_node_count_run : TopoRead → Except PyExc Nat
  | TopoRead.missingFile => Except.error PyExc.osError
  | TopoRead.unreadableFile => Except.error PyExc.osError
  | TopoRead.invalidYaml => Except.error PyExc.yamlError
  | TopoRead.nonMapping => Except.error PyExc.attributeError
  | TopoRead.mapping d => Except.ok (expected_node_count d)

/-- Modelled from the spec: the Topology Reader contract of section 4.2,
returning the triple of total node count, control-plane count and worker
count, classifying each node by its declared role field. The code under
verification has no such operation; the definition exists only to compare
the code against the claimed contract. -/
def specExpectedTopology (d : TopoDoc) : Nat × Nat × Nat :=
  let ns := d.nodes.getD []
  (ns.length,
    (ns.filter (fun n => n.role == some "control-plane")).length,
    (ns.filter (fun n => n.role == some "worker")).length)

/-- The scan over the ingress controller pod list in start.py: counts the
Ready pods and raises StartError at the first pod with a terminal
container waiting reason; the readiness increment precedes the container
scan inside the loop body. -/
def ingressScan : List Pod → Nat → Except PyExc Nat
  | [], acc => Except.ok acc
  | p :: rest, acc =>
    let acc2 := if pod_is_ready p then acc + 1 else acc
    match firstTerminalWaiting p.containerStatuses with
    | some rm =>
      Except.error (PyExc.startError ("Ingress pod " ++ p.name ++ " failure: " ++ rm.1))
    | none => ingressScan rest acc2

/-- One iteration of wait_for_platform_ingress from start.py: a failing
pod query retries; on a zero exit code the captured stdout is fed to
json.loads outside any try block, so a parse failure raises to the caller;
an empty pod list retries; otherwise the scan either raises on a terminal
waiting reason or yields the Ready count, and the iteration is done when
every pod is Ready. -/
def ingressStep (rc : Int) (parsed : Parsed (List Pod)) : Step Unit :=
  if rc != 0 then Step.retry
  else
    match parsed with
    | Parsed.fail => Step.raise PyExc.jsonError
    | Parsed.ok pods =>
      if pods.isEmpty then Step.retry
      else
        match ingressScan pods 0 with
        | Except.error e => Step.raise e
        | Except.ok readyCount =>
          if readyCount == pods.length then Step.done () else Step.retry

/-- The observed outcome of one smoke-test HTTP request. -/
inductive HttpOutcome where
  | response (status : Nat)
  | urlError
  | timeoutError
  | connectionError
  | otherException
deriving DecidableEq

/-- One iteration of smoke_test_ingress_entrypoint from start.py: a 200
response returns done; a response with any other status retries; URLError,
TimeoutError and ConnectionError retry; the final catch-all handler also
retries, so no exception escapes an iteration. -/
def smokeStep : HttpOutcome → Step Unit
  | HttpOutcome.response status => if status == 200 then Step.done () else Step.retry
  | HttpOutcome.urlError => Step.retry
  | HttpOutcome.timeoutError => Step.retry
  | HttpOutcome.connectionError => Step.retry
  | HttpOutcome.otherException => Step.retry

/-- The status block of a job object; each count is read with a get
default of zero followed by an or-zero guard. -/
structure JobStatus where
  succeeded : Nat
  failed : Nat
  active : Nat
deriving DecidableEq

/-- One iteration of the polling loop inside
wait_for_job_complete_if_exists from start.py: a missing or unparsable job
object retries; a succeeded count of at least one returns done, and this
branch runs before the failure branch; then a positive failed count raises
StartError; otherwise retry. On the natural-number counts the Python guard
of a truthy failed value and failed greater than zero reduces to failed
being positive. -/
def jobStep (ns jobName : String) (job : Option JobStatus) : Step Unit :=
  match job with
  | none => Step.retry
  | some st =>
    if 1 ≤ st.succeeded then Step.done ()
    else if 0 < st.failed then
      Step.raise (PyExc.startError
        ("Job " ++ ns ++ "/" ++ jobName ++ " failed (failed=" ++ toString st.failed ++ ")."))
    else Step.retry

/-- The terminated outcomes of a wait loop run over a finite trace of
per-iteration observations, counting the loop iterations executed. -/
inductive WaitOutcome where
  | completed (polls : Nat)
  | aborted (e : PyExc) (polls : Nat)
  | exhausted
deriving DecidableEq

/-- The job wait loop over a trace of per-iteration observations. -/
def jobWaitLoop (ns jobName : String) : List (Option JobStatus) → Nat → WaitOutcome
  | [], _ => WaitOutcome.exhausted
  | o :: rest, n =>
    match jobStep ns jobName o with
    | Step.done _ => WaitOutcome.completed (n + 1)
    | Step.raise e => WaitOutcome.aborted e (n + 1)
    | Step.retry => jobWaitLoop ns jobName rest (n + 1)

/-- wait_for_job_complete_if_exists from start.py: the exit code of the
existence probe decides whether to poll at all; a nonzero exit code
returns at once with zero poll iterations executed. -/
def wait_for_job_complete_if_exists (existsRc : Int) (ns jobName : String)
    (obs : List (Option JobStatus)) : WaitOutcome :=
  if existsRc == 0 then jobWaitLoop ns jobName obs 0
  else WaitOutcome.completed 0

/-! Helper lemmas. -/

/-- Reduction of a boolean-guarded step to its guard. -/
theorem step_ite_done_iff (c : Bool) :
    (if c then Step.done () else Step.retry) = Step.done () ↔ c = true := by
  cases c <;> simp

/-- Characterization of a done node-readiness iteration with a successful
query. -/
theorem nodesReadyStep_ok_done_iff (expected : Nat) (items : List Node) :
    nodesReadyStep expected 0 (Parsed.ok items) = Step.done () ↔
      items.length = expected ∧ ∀ n ∈ items, node_is_ready n = true := by
  have base : nodesReadyStep expected 0 (Parsed.ok items) =
      (if items.length == expected && (items.filter node_is_ready).length == expected
        then Step.done () else Step.retry) := rfl
  rw [base, step_ite_done_iff, Bool.and_eq_true, beq_iff_eq, beq_iff_eq]
  constructor
  · rintro ⟨hlen, hfil⟩
    refine ⟨hlen, ?_⟩
    have hcount : items.countP node_is_ready = items.length := by
      rw [List.countP_eq_length_filter, hfil, hlen]
    exact List.countP_eq_length.mp hcount
  · rintro ⟨hlen, hall⟩
    refine ⟨hlen, ?_⟩
    have hcount : items.countP node_is_ready = items.length := List.countP_eq_length.mpr hall
    rw [← List.countP_eq_length_filter, hcount, hlen]

/-- Replacing any single node of an observation with a not-Ready node makes
the node-readiness iteration not done. -/
theorem nodes_ready_flip (expected : Nat) (items : List Node) (i : Nat) (bad : Node)
    (_hdone : nodesReadyStep expected 0 (Parsed.ok items) = Step.done ())
    (hi : i < items.length) (hbad : node_is_ready bad = false) :
    nodesReadyStep expected 0 (Parsed.ok (items.set i bad)) ≠ Step.done () := by
  intro hdone2
  obtain ⟨hlen2, hall2⟩ := (nodesReadyStep_ok_done_iff expected (items.set i bad)).mp hdone2
  have hi2 : i < (items.set i bad).length := by
    rw [List.length_set]; exact hi
  have hmem : bad ∈ items.set i bad := by
    have hget := List.getElem_mem hi2
    rwa [List.getElem_set_self hi2] at hget
  have hc := hall2 bad hmem
  rw [hbad] at hc
  exact Bool.false_ne_true hc

/-- Characterization of a healthy snapshot in terms of its observed
inputs. -/
theorem healthy_iff (h : HealthInputs) (expected : Nat) :
    cluster_is_healthy_snapshot h expected = true ↔
      h.clusterInfoRc = 0 ∧ h.getNodesRc = 0 ∧
      ∃ items, h.nodesParsed = Parsed.ok items ∧ items.length = expected ∧
        ∀ n ∈ items, node_is_ready n = true := by
  obtain ⟨ci, gn, np⟩ := h
  by_cases hci : ci = 0
  · by_cases hgn : gn = 0
    · cases np with
      | fail => simp [cluster_is_healthy_snapshot, hci, hgn]
      | ok items =>
        by_cases hlen : items.length = expected
        · simp [cluster_is_healthy_snapshot, hci, hgn, hlen, List.all_eq_true]
        · simp [cluster_is_healthy_snapshot, hci, hgn, hlen]
    · simp [cluster_is_healthy_snapshot, hci, hgn]
  · simp [cluster_is_healthy_snapshot, hci]

/-! Claims. -/

/-- Claim C1, amended. In the generic Waiter.wait a supplied fail-fast
predicate that yields a non-empty diagnostic makes the iteration raise
RuntimeError with that diagnostic, whatever the main condition returned, so
such an iteration never returns done. In the deployment-availability wait,
however, the availability gate is consulted first: an iteration on which
it holds returns done without consulting the fail-fast detector at all,
whatever diagnostic the detector would have produced, and the detector
aborts only iterations on which the gate does not hold. -/
theorem waiter_fail_fast_preemption :
    (∀ (s : String) (check : Bool × String), s ≠ "" →
      waiterStep (some (some s)) check = Step.raise (PyExc.runtimeError s)) ∧
    (∀ (st : DepStatus) (podsRc : Int) (podsParsed : Parsed (List Pod))
        (componentName : String),
      deploymentAvailable st = true →
      depWaitStep (some st) podsRc podsParsed componentName = Step.done ()) ∧
    (∀ (st : DepStatus) (podsRc : Int) (podsParsed : Parsed (List Pod))
        (componentName : String) (e : PyExc),
      deploymentAvailable st = false →
      raise_on_terminal_pod_failures podsRc podsParsed componentName = Except.error e →
      depWaitStep (some st) podsRc podsParsed componentName = Step.raise e) := by
  refine ⟨?_, ?_, ?_⟩
  · intro s check hs
    have h1 : strTruthy (some s) = true := by simp [strTruthy, hs]
    simp [waiterStep, h1]
  · intro st rc pp c h
    simp [depWaitStep, h]
  · intro st rc pp c e h hr
    simp [depWaitStep, h, hr]

/-- Witness for claim C1: the generic poller raising a concrete non-empty
diagnostic on an iteration whose main condition reports done. -/
theorem waiter_fail_fast_preemption_witness :
    waiterStep (some (some "pod failure detected")) (true, "done") =
      Step.raise (PyExc.runtimeError "pod failure detected") :=
  waiter_fail_fast_preemption.1 "pod failure detected" (true, "done") (by decide)

/-- Claim C1 is false as stated: a concrete deployment-availability wait
iteration whose fail-fast detector yields a non-empty diagnostic still
returns done, because that loop consults the main condition first. -/
theorem waiter_fail_fast_preemption_cex :
    raise_on_terminal_pod_failures 0
        (Parsed.ok [⟨"coredns-5d78c9869d-abcde", "Pending", [],
          [⟨some ⟨some "CrashLoopBackOff", "back-off restarting container"⟩⟩]⟩]) "CoreDNS" =
      Except.error (PyExc.startError
        "CoreDNS pod failure: coredns-5d78c9869d-abcde phase=Pending reason=CrashLoopBackOff back-off restarting container") ∧
    "CoreDNS pod failure: coredns-5d78c9869d-abcde phase=Pending reason=CrashLoopBackOff back-off restarting container" ≠ "" ∧
    depWaitStep (some ⟨some 1, some 1, some 1, some 0⟩) 0
        (Parsed.ok [⟨"coredns-5d78c9869d-abcde", "Pending", [],
          [⟨some ⟨some "CrashLoopBackOff", "back-off restarting container"⟩⟩]⟩]) "CoreDNS" =
      Step.done () :=
  ⟨rfl, by decide, rfl⟩

/-- Claim C2, amended. The deployment-availability check is done exactly
when the deployment status reports a positive replica count and an
availableReplicas count equal to it; the readyReplicas count is never
consulted. The boundary observation with desired three, ready zero and
available zero is not done, and the observation with desired three, ready
one and available one is also not done: the gate is all current replicas
available, not at least one working replica. -/
theorem deployment_available_gate :
    (∀ st : DepStatus,
      deploymentAvailable st = true ↔
        0 < st.replicas.getD 0 ∧ st.availableReplicas.getD 0 = st.replicas.getD 0) ∧
    (∀ (st : DepStatus) (r : Option Nat),
      deploymentAvailable ⟨st.replicas, st.availableReplicas, st.updatedReplicas, r⟩ =
        deploymentAvailable st) ∧
    deploymentAvailable ⟨some 3, some 0, some 0, some 0⟩ = false := by
  refine ⟨?_, ?_, rfl⟩
  · intro st
    simp [deploymentAvailable]
  · intro st r
    rfl

/-- Claim C2 is false as stated: a deployment status with three replicas,
one ready and one available satisfies the claimed at-least-one gate but the
availability check of the code reports not done. -/
theorem deployment_available_gate_cex :
    specDeploymentAvailable ⟨some 3, some 1, some 1, some 1⟩ = true ∧
    deploymentAvailable ⟨some 3, some 1, some 1, some 1⟩ = false :=
  ⟨rfl, rfl⟩

/-- Claim C3: the snapshot is healthy exactly when cluster-info succeeds,
the node query succeeds and parses, the observed node count equals the
expected total and every node is Ready; a run of the reconciler issues
exactly one create and no delete when the target name is absent from the
cluster list, no command when it is present with a healthy snapshot, and
exactly one delete followed by one create when it is present with an
unhealthy snapshot and the delete command succeeds. -/
theorem ensure_cluster_decision :
    ∀ (clusters : List String) (name : String) (h : HealthInputs) (expected : Nat)
      (deleteRc createRc : Int),
      (cluster_is_healthy_snapshot h expected = true ↔
        h.clusterInfoRc = 0 ∧ h.getNodesRc = 0 ∧
        ∃ items, h.nodesParsed = Parsed.ok items ∧ items.length = expected ∧
          ∀ n ∈ items, node_is_ready n = true) ∧
      (name ∉ clusters →
        (ensure_cluster clusters name h expected deleteRc createRc).1 = [RCmd.create]) ∧
      (name ∈ clusters → cluster_is_healthy_snapshot h expected = true →
        (ensure_cluster clusters name h expected deleteRc createRc).1 = []) ∧
      (name ∈ clusters → cluster_is_healthy_snapshot h expected = false → deleteRc = 0 →
        (ensure_cluster clusters name h expected deleteRc createRc).1 =
          [RCmd.delete, RCmd.create]) := by
  intro clusters name h expected deleteRc createRc
  refine ⟨healthy_iff h expected, ?_, ?_, ?_⟩
  · intro hmem
    simp [ensure_cluster, hmem]
  · intro hmem hh
    simp [ensure_cluster, hmem, hh]
  · intro hmem hh hdel
    subst hdel
    simp [ensure_cluster, hmem, hh]

/-- Witness for claim C3: a concrete absent cluster yields one create, and
a concrete present but unhealthy cluster yields one delete then one
create. -/
theorem ensure_cluster_decision_witness :
    (ensure_cluster [] "kube-chaos-lab" ⟨0, 0, Parsed.ok []⟩ 1 0 0).1 = [RCmd.create] ∧
    (ensure_cluster ["kube-chaos-lab"] "kube-chaos-lab" ⟨0, 0, Parsed.ok []⟩ 1 0 0).1 =
      [RCmd.delete, RCmd.create] :=
  ⟨(ensure_cluster_decision [] "kube-chaos-lab" ⟨0, 0, Parsed.ok []⟩ 1 0 0).2.1
      (by decide),
    (ensure_cluster_decision ["kube-chaos-lab"] "kube-chaos-lab" ⟨0, 0, Parsed.ok []⟩ 1 0 0).2.2.2
      (by decide) (by decide) rfl⟩

/-- Claim C4, amended. The topology-reading operation returns only the
total node count: it equals the first component of the spec triple and it
is invariant under reordering of the nodes list, but the control-plane and
worker sub-counts are neither computed nor returned. -/
theorem expected_topology_returns_total :
    (∀ d : TopoDoc, expected_node_count d = (specExpectedTopology d).1) ∧
    (∀ ns1 ns2 : List TopoNode, ns1.Perm ns2 →
      expected_node_count ⟨some ns1⟩ = expected_node_count ⟨some ns2⟩) := by
  constructor
  · intro d
    rfl
  · intro ns1 ns2 hp
    simpa [expected_node_count] using hp.length_eq

/-- Witness for claim C4: the count agrees on a concrete reordering of a
two-node topology. -/
theorem expected_topology_returns_total_witness :
    expected_node_count ⟨some [⟨some "control-plane"⟩, ⟨some "worker"⟩]⟩ =
      expected_node_count ⟨some [⟨some "worker"⟩, ⟨some "control-plane"⟩]⟩ :=
  expected_topology_returns_total.2 [⟨some "control-plane"⟩, ⟨some "worker"⟩]
    [⟨some "worker"⟩, ⟨some "control-plane"⟩] (by decide)

/-- Claim C4 is false as stated: two topology files whose spec triples
differ in their role sub-counts receive the same value from the
topology-reading operation, so that operation cannot return the claimed
triple. -/
theorem expected_topology_returns_total_cex :
    expected_node_count ⟨some [⟨some "control-plane"⟩, ⟨some "worker"⟩]⟩ =
      expected_node_count ⟨some [⟨some "worker"⟩, ⟨some "worker"⟩]⟩ ∧
    specExpectedTopology ⟨some [⟨some "control-plane"⟩, ⟨some "worker"⟩]⟩ ≠
      specExpectedTopology ⟨some [⟨some "worker"⟩, ⟨some "worker"⟩]⟩ :=
  ⟨rfl, by decide⟩

/-- Claim C5: the claim states the intended design, and the code deviates
from it at the two cited sites. A pod query that exits zero but whose
stdout fails JSON parsing raises the parse error to the caller, both in
the fail-fast detector and in the ingress pod-readiness loop, instead of
producing a not-done result and another poll iteration. -/
theorem pod_list_parse_failure_raises :
    raise_on_terminal_pod_failures 0 Parsed.fail "CoreDNS" = Except.error PyExc.jsonError ∧
    ingressStep 0 Parsed.fail = Step.raise PyExc.jsonError :=
  ⟨rfl, rfl⟩

/-- Claim C6: the node-readiness iteration with a successful query is done
exactly when the observed item count equals the expected total and every
observed node has a true Ready condition, and replacing any single node of
a done observation with a not-Ready node makes the iteration not done. -/
theorem nodes_ready_characterization :
    (∀ (expected : Nat) (items : List Node),
      nodesReadyStep expected 0 (Parsed.ok items) = Step.done () ↔
        items.length = expected ∧ ∀ n ∈ items, node_is_ready n = true) ∧
    (∀ (expected : Nat) (items : List Node) (i : Nat) (bad : Node),
      nodesReadyStep expected 0 (Parsed.ok items) = Step.done () →
      i < items.length → node_is_ready bad = false →
      nodesReadyStep expected 0 (Parsed.ok (items.set i bad)) ≠ Step.done ()) :=
  ⟨fun expected items => nodesReadyStep_ok_done_iff expected items,
    fun expected items i bad hdone hi hbad =>
      nodes_ready_flip expected items i bad hdone hi hbad⟩

/-- Witness for claim C6: flipping the single node of a concrete done
observation to not-Ready makes the iteration not done. -/
theorem nodes_ready_characterization_witness :
    nodesReadyStep 1 0
        (Parsed.ok ([⟨[⟨"Ready", "True"⟩]⟩].set 0 ⟨[⟨"Ready", "False"⟩]⟩)) ≠
      Step.done () :=
  nodes_ready_characterization.2 1 [⟨[⟨"Ready", "True"⟩]⟩] 0 ⟨[⟨"Ready", "False"⟩]⟩
    (by decide) (by decide) (by decide)

/-- Claim C7: the smoke-test iteration is done exactly on an HTTP 200
response, and every observed outcome, a response of any status, a
transport error, a refused connection or a timeout, yields done or retry,
never a raised error. -/
theorem smoke_check_outcomes :
    ∀ o : HttpOutcome,
      (smokeStep o = Step.done () ↔ o = HttpOutcome.response 200) ∧
      (smokeStep o = Step.done () ∨ smokeStep o = Step.retry) := by
  intro o
  cases o with
  | response status =>
    by_cases hs : status = 200
    · subst hs
      exact ⟨⟨fun _ => rfl, fun _ => rfl⟩, Or.inl rfl⟩
    · have hstep : smokeStep (HttpOutcome.response status) = Step.retry := by
        simp [smokeStep, hs]
      rw [hstep]
      refine ⟨?_, Or.inr rfl⟩
      simp [hs]
  | urlError => exact ⟨by simp [smokeStep], Or.inr rfl⟩
  | timeoutError => exact ⟨by simp [smokeStep], Or.inr rfl⟩
  | connectionError => exact ⟨by simp [smokeStep], Or.inr rfl⟩
  | otherException => exact ⟨by simp [smokeStep], Or.inr rfl⟩

/-- Claim C8: the plain runner always returns the exit code and both
captured streams and never raises; the checked runner raises exactly on a
nonzero exit code, and the raised CommandError carries the exact command
argv and the full result with both captured streams. -/
theorem command_runner_contract :
    ∀ (command : List String) (p : SpawnResult),
      (run_command p).returncode = p.returncode ∧
      (run_command p).stdout = p.stdout.getD "" ∧
      (run_command p).stderr = p.stderr.getD "" ∧
      (p.returncode = 0 → run_or_raise command p = Except.ok (run_command p)) ∧
      (p.returncode ≠ 0 →
        run_or_raise command p =
          Except.error (PyExc.commandError command (run_command p))) := by
  intro command p
  refine ⟨rfl, rfl, rfl, ?_, ?_⟩
  · intro h0
    simp [run_or_raise, run_command, h0]
  · intro hne
    simp [run_or_raise, run_command, bne_iff_ne, hne]

/-- Witness for claim C8: a concrete failing command raises a CommandError
carrying the argv and both streams, and a concrete succeeding command
returns its result. -/
theorem command_runner_contract_witness :
    run_or_raise ["kind", "get", "clusters"] ⟨1, some "out", some "err"⟩ =
      Except.error
        (PyExc.commandError ["kind", "get", "clusters"] ⟨1, "out", "err"⟩) ∧
    run_or_raise ["kubectl", "cluster-info"] ⟨0, none, none⟩ = Except.ok ⟨0, "", ""⟩ :=
  ⟨(command_runner_contract ["kind", "get", "clusters"]
        ⟨1, some "out", some "err"⟩).2.2.2.2 (by decide),
    (command_runner_contract ["kubectl", "cluster-info"] ⟨0, none, none⟩).2.2.2.1 rfl⟩

/-- Claim C9, amended. The topology-reading operation raises the unwrapped
underlying error when the file is missing or unreadable or when the YAML
does not parse or the document is not a mapping, and it succeeds with zero
when a parsed mapping lacks a nodes list; no ConfigurationError wrapping
exists anywhere on this path. -/
theorem expected_node_count_error_behavior :
    expected_node_count_run TopoRead.missingFile = Except.error PyExc.osError ∧
    expected_node_count_run TopoRead.unreadableFile = Except.error PyExc.osError ∧
    expected_node_count_run TopoRead.invalidYaml = Except.error PyExc.yamlError ∧
    expected_node_count_run TopoRead.nonMapping = Except.error PyExc.attributeError ∧
    ∀ d : TopoDoc,
      expected_node_count_run (TopoRead.mapping d) = Except.ok (expected_node_count d) :=
  ⟨rfl, rfl, rfl, rfl, fun _ => rfl⟩

/-- Claim C9 is false as stated: a parsed mapping with no nodes list makes
the operation succeed with zero instead of failing, and a missing file
raises the unwrapped file-system error instead of a ConfigurationError. -/
theorem expected_node_count_error_behavior_cex :
    expected_node_count_run (TopoRead.mapping ⟨none⟩) = Except.ok 0 ∧
    expected_node_count_run TopoRead.missingFile = Except.error PyExc.osError :=
  ⟨rfl, rfl⟩

/-- Claim C10: when the existence probe fails the job wait returns at once
with zero poll iterations and no error; a poll observation with a
succeeded count of at least one returns done, whatever the failed count,
because the success branch runs first; and a raise on a poll observation
happens exactly when the failed count is positive and the succeeded count
is zero. -/
theorem job_wait_semantics :
    (∀ (rc : Int) (ns jobName : String) (obs : List (Option JobStatus)), rc ≠ 0 →
      wait_for_job_complete_if_exists rc ns jobName obs = WaitOutcome.completed 0) ∧
    (∀ (ns jobName : String) (st : JobStatus), 1 ≤ st.succeeded →
      jobStep ns jobName (some st) = Step.done ()) ∧
    (∀ (ns jobName : String) (st : JobStatus) (e : PyExc),
      jobStep ns jobName (some st) = Step.raise e → 0 < st.failed ∧ st.succeeded = 0) ∧
    (∀ (ns jobName : String) (st : JobStatus), 0 < st.failed → st.succeeded = 0 →
      jobStep ns jobName (some st) =
        Step.raise (PyExc.startError
          ("Job " ++ ns ++ "/" ++ jobName ++ " failed (failed=" ++
            toString st.failed ++ ")."))) := by
  refine ⟨?_, ?_, ?_, ?_⟩
  · intro rc ns jobName obs hrc
    simp [wait_for_job_complete_if_exists, hrc]
  · intro ns jobName st hs
    simp [jobStep, hs]
  · intro ns jobName st e h
    by_cases hs : 1 ≤ st.succeeded
    · simp [jobStep, hs] at h
    · by_cases hf : 0 < st.failed
      · exact ⟨hf, by omega⟩
      · simp [jobStep, hs, hf] at h
  · intro ns jobName st hf hs0
    have hns : ¬ 1 ≤ st.succeeded := by omega
    simp [jobStep, hns, hf]

/-- Witness for claim C10: a concrete absent job returns at once with zero
polls, and a concrete observation with one succeeded and two failed
returns done. -/
theorem job_wait_semantics_witness :
    wait_for_job_complete_if_exists 1 "default" "bootstrap" [some ⟨0, 2, 0⟩] =
      WaitOutcome.completed 0 ∧
    jobStep "default" "bootstrap" (some ⟨1, 2, 0⟩) = Step.done () :=
  ⟨job_wait_semantics.1 1 "default" "bootstrap" [some ⟨0, 2, 0⟩] (by decide),
    job_wait_semantics.2.1 "default" "bootstrap" ⟨1, 2, 0⟩ (by decide)⟩

end KubeChaosLab
